import Mathlib

/-!
Verification of the fortran magic extension (`src/fortranmagic.py`).

This file gives a shallow embedding of the caching / build-invocation logic
of the `FortranMagics` class and proves or refutes the frozen claims about
it.  Python values appearing in `vars(args)` are modelled by `PyVal`; the
external pieces (the md5 hex digest, the Python `str` rendering of the key
tuple, and the behaviour of the `f2py2e` driver entry point) are parameters
of the embedding, since they live outside the repository.
-/

set_option autoImplicit false

namespace FortranMagic

/-- A Python value as it can occur among the parsed magic arguments:
`None`, a boolean, an int (the verbosity count), a string option, or the
list of link resources. -/
inductive PyVal where
  | none
  | bool (b : Bool)
  | int (n : Nat)
  | str (s : String)
  | list (l : List String)
  deriving DecidableEq, Repr

/-- The parsed argument set of the `%%fortran` cell magic, one field per
`magic_arguments.argument` declaration (lines 78-126 of the source).
`verbosity` is a count (int), the six option arguments parse to a string or
`None`, the three `store_true` flags to booleans, `link` accumulates a
list. -/
structure ParsedArgs where
  verbosity : Nat
  fcompiler : Option String
  compiler : Option String
  f90flags : Option String
  f77flags : Option String
  opt : Option String
  arch : Option String
  noopt : Bool
  noarch : Bool
  debug : Bool
  link : List String
  deriving DecidableEq, Repr

/-- The defaults of the argument declarations: count defaults to 0, options
to `None`, flags to false, `link` to `[]`. -/
def ParsedArgs.default : ParsedArgs :=
  { verbosity := 0, fcompiler := Option.none, compiler := Option.none,
    f90flags := Option.none, f77flags := Option.none, opt := Option.none,
    arch := Option.none, noopt := false, noarch := false, debug := false,
    link := [] }

/-- Render an optional string argument the way it sits in `vars(args)`:
either `None` or the string itself. -/
def optVal : Option String → PyVal
  | Option.none => PyVal.none
  | Option.some s => PyVal.str s

/-- The `vars(args)` dictionary of the parsed arguments as an association
list, in field declaration order. -/
def argsVars (a : ParsedArgs) : List (String × PyVal) :=
  [ ("verbosity", PyVal.int a.verbosity),
    ("fcompiler", optVal a.fcompiler),
    ("compiler", optVal a.compiler),
    ("f90flags", optVal a.f90flags),
    ("f77flags", optVal a.f77flags),
    ("opt", optVal a.opt),
    ("arch", optVal a.arch),
    ("noopt", PyVal.bool a.noopt),
    ("noarch", PyVal.bool a.noarch),
    ("debug", PyVal.bool a.debug),
    ("link", PyVal.list a.link) ]

/-- The Python test `v is True`: only the boolean `True` object passes. -/
def isTrueVal : PyVal → Bool
  | PyVal.bool b => b
  | _ => false

/-- The Python test `isinstance(v, basestring)`. -/
def strVal? : PyVal → Option String
  | PyVal.str s => Option.some s
  | _ => Option.none

/-- The argument translator of `FortranMagics.fortran` (lines 237-247):
boolean flags that are `True` become `--name`, string-valued options become
`--name=value`, then each link resource `r` becomes `--link-r`. -/
def f2pyArgs (a : ParsedArgs) : List String :=
  ((argsVars a).filterMap fun kv =>
      if isTrueVal kv.2 then Option.some ("--" ++ kv.1) else Option.none)
    ++ ((argsVars a).filterMap fun kv =>
      (strVal? kv.2).map fun s => "--" ++ kv.1 ++ "=" ++ s)
    ++ (a.link.map fun r => "--link-" ++ r)

/-- Spec-side restatement of the translator contract (spec 4.1): the tokens
of the true boolean flags, then the tokens of the present string options,
then the link tokens, each in the enumerated option order. -/
def specTokens (a : ParsedArgs) : List String :=
  ((if a.noopt then ["--noopt"] else [])
    ++ (if a.noarch then ["--noarch"] else [])
    ++ (if a.debug then ["--debug"] else []))
  ++ ((match a.fcompiler with
        | Option.some s => ["--fcompiler=" ++ s] | Option.none => [])
      ++ (match a.compiler with
        | Option.some s => ["--compiler=" ++ s] | Option.none => [])
      ++ (match a.f90flags with
        | Option.some s => ["--f90flags=" ++ s] | Option.none => [])
      ++ (match a.f77flags with
        | Option.some s => ["--f77flags=" ++ s] | Option.none => [])
      ++ (match a.opt with
        | Option.some s => ["--opt=" ++ s] | Option.none => [])
      ++ (match a.arch with
        | Option.some s => ["--arch=" ++ s] | Option.none => []))
  ++ (a.link.map fun r => "--link-" ++ r)

/-- The Python test `cell.endswith(chr(10))`: the last character of the
text is a newline. -/
def endsNL (s : String) : Bool := s.data.getLast? == Option.some '\n'

/-- Source normalization (line 249): `code = cell if cell.endswith(nl) else
cell + nl`. -/
def norm (cell : String) : String := if endsNL cell then cell else cell ++ "\n"

/-- The ambient interpreter and toolchain identity read at lines 250,
134 and 255: `sys.version_info`, `sys.executable`,
`f2py2e.f2py_version`, the cache directory `self._lib_dir` and the
platform extension suffix `self.so_ext`. -/
structure Env where
  versionInfo : String
  executable : String
  f2pyVersion : String
  libDir : String
  soExt : String
  deriving DecidableEq, Repr

/-- The cache key tuple of line 250:
`key = code, sys.version_info, sys.executable, f2py2e.f2py_version`. -/
structure Key where
  code : String
  versionInfo : String
  executable : String
  f2pyVersion : String
  deriving DecidableEq, Repr

/-- Compute the key of a request: the normalized cell text together with
the three ambient identity components, and nothing else. -/
def requestKey (env : Env) (cell : String) : Key :=
  { code := norm cell, versionInfo := env.versionInfo,
    executable := env.executable, f2pyVersion := env.f2pyVersion }

/-- The generated module base name of lines 252-253:
`"_fortran_magic_" + hashlib.md5(str(key).encode(utf8)).hexdigest()`.
`strKey` stands for the Python `str` rendering of the key tuple and
`md5hex` for the md5 hex digest, both external to the repository. -/
def moduleNameOf (md5hex : String → String) (strKey : Key → String)
    (env : Env) (cell : String) : String :=
  "_fortran_magic_" ++ md5hex (strKey (requestKey env cell))

/-- The outcome of calling the external driver entry point
`f2py2e.main()`: it returns normally, raises `SystemExit e` (whose
`str(e)` we carry), or raises some other exception. -/
inductive DriverOutcome where
  | ret
  | sysExit (msg : String)
  | otherExc (msg : String)
  deriving DecidableEq, Repr

/-- Behaviour of the external driver, as a function of the full argument
vector `sys.argv` it is run under: the outcome of `f2py2e.main()` and the
output captured by `capture_output()` during the run. -/
structure DriverBehavior where
  outcome : List String → DriverOutcome
  captured : List String → String

/-- An exception escaping `_run_f2py`: the `UsageError` raised at line 169,
or any other exception propagating through. -/
inductive PyExc where
  | usageError (content : String)
  | other (msg : String)
  deriving DecidableEq, Repr

deriving instance DecidableEq for Except

/-- The mutable process globals touched by `_run_f2py`: `sys.argv` and the
current working directory. -/
structure ProcState where
  argv : List String
  cwd : String
  deriving DecidableEq, Repr

/-- Observable result of one `_run_f2py` call: the texts displayed to the
user, in order, and normal return or an escaping exception. -/
structure RunResult where
  displayed : List String
  result : Except PyExc Unit
  deriving DecidableEq, Repr

/-- Shallow embedding of `FortranMagics._run_f2py` (lines 148-172).  The
old `sys.argv` and working directory are saved, `sys.argv` is set to
`["f2py"] + argv` and the directory switched to the cache dir, the driver
entry point runs with output captured; on normal return the captured text
is replayed when `show_captured or verbosity > 2`; a `SystemExit` replays
the captured text and raises `UsageError(str(e))`; any other exception
propagates; the `finally` block restores `sys.argv` and the directory in
every case. -/
def runF2py (libDir : String) (argv : List String) (showCaptured : Bool)
    (verbosity : Nat) (beh : DriverBehavior) (st : ProcState) :
    RunResult × ProcState :=
  let oldArgv := st.argv
  let oldCwd := st.cwd
  let st1 : ProcState := { argv := "f2py" :: argv, cwd := libDir }
  let running := if verbosity > 1
    then ["Running...\n   " ++ " ".intercalate st1.argv] else []
  let cap := beh.captured st1.argv
  let eff : RunResult :=
    match beh.outcome st1.argv with
    | DriverOutcome.ret =>
        { displayed := running ++ (if showCaptured || verbosity > 2 then [cap] else []),
          result := Except.ok () }
    | DriverOutcome.sysExit msg =>
        { displayed := running ++ [cap],
          result := Except.error (PyExc.usageError msg) }
    | DriverOutcome.otherExc msg =>
        { displayed := running,
          result := Except.error (PyExc.other msg) }
  (eff, { argv := oldArgv, cwd := oldCwd })

/-- Result of `FortranMagics._import_all` (lines 138-146): the bindings
pushed into the interactive namespace and the lines printed. -/
structure ImportResult where
  pushed : List (String × PyVal)
  printed : List String
  deriving DecidableEq, Repr

/-- The Python test `k.startswith("__")` of line 141, stated on the
character data of the name. -/
def startsDunder (s : String) : Bool := ("__").data.isPrefixOf s.data

/-- The summary line printed by `_import_all` (lines 145-146). -/
def summaryLine (names : List String) : String :=
  "\nOk. The following fortran objects are ready to use: "
    ++ ", ".intercalate names

/-- Shallow embedding of `FortranMagics._import_all`: every item of the
module dict whose name does not start with two underscores is pushed into
the shell namespace and its name collected; if `verbosity > 0` and some
name was collected, a summary line is printed. -/
def importAll (moduleDict : List (String × PyVal)) (verbosity : Nat) :
    ImportResult :=
  let pushed := moduleDict.filter fun kv => !(startsDunder kv.1)
  let imported := pushed.map Prod.fst
  { pushed := pushed,
    printed :=
      if verbosity > 0 && !imported.isEmpty then [summaryLine imported]
      else [] }

/-- The source file path of line 257: `os.path.join(self._lib_dir,
module_name + ".f90")`. -/
def f90FileOf (md5hex : String → String) (strKey : Key → String)
    (env : Env) (cell : String) : String :=
  env.libDir ++ "/" ++ moduleNameOf md5hex strKey env cell ++ ".f90"

/-- The artifact path of line 255: `os.path.join(self._lib_dir,
module_name + self.so_ext)`. -/
def modulePathOf (md5hex : String → String) (strKey : Key → String)
    (env : Env) (cell : String) : String :=
  env.libDir ++ "/" ++ moduleNameOf md5hex strKey env cell ++ env.soExt

/-- The argument vector handed to `_run_f2py` at line 263:
`f2py_args + ["-m", module_name, "-c", f90_file]`. -/
def fortranArgv (md5hex : String → String) (strKey : Key → String)
    (env : Env) (args : ParsedArgs) (cell : String) : List String :=
  f2pyArgs args
    ++ ["-m", moduleNameOf md5hex strKey env cell, "-c",
        f90FileOf md5hex strKey env cell]

/-- The per-instance state of `FortranMagics` that the `fortran` magic
touches: the `_code_cache` dict (modelled as an association list where an
assignment prepends, so `List.lookup` sees the latest binding) together
with the process globals. -/
structure MagicState where
  codeCache : List (Key × String)
  proc : ProcState

/-- Observable effects of one `%%fortran` invocation. -/
structure FortranEffects where
  moduleName : String
  modulePath : String
  filesWritten : List (String × String)
  driverArgv : List (List String)
  displayed : List String
  loaded : Option (String × String)
  pushed : List (String × PyVal)
  printed : List String
  result : Except PyExc Unit
  deriving DecidableEq, Repr

/-- Shallow embedding of the `FortranMagics.fortran` cell magic
(lines 235-268).  The translated flags are computed, the cell text
normalized, the key tuple and module name derived, the source written to
`libDir/moduleName.f90`, and `_run_f2py` invoked unconditionally with
`f2py_args + ["-m", module_name, "-c", f90_file]`; only if it returns
without raising is `_code_cache[key]` assigned, the artifact at
`libDir/moduleName + soExt` loaded (its dict is the parameter
`moduleDict`) and `_import_all` run. -/
def fortran (env : Env) (md5hex : String → String) (strKey : Key → String)
    (beh : DriverBehavior) (moduleDict : List (String × PyVal))
    (args : ParsedArgs) (cell : String) (st : MagicState) :
    FortranEffects × MagicState :=
  let code := norm cell
  let key := requestKey env cell
  let moduleName := moduleNameOf md5hex strKey env cell
  let modulePath := modulePathOf md5hex strKey env cell
  let f90File := f90FileOf md5hex strKey env cell
  let argv := fortranArgv md5hex strKey env args cell
  let runOut := runF2py env.libDir argv false args.verbosity beh st.proc
  let run := runOut.1
  let proc1 := runOut.2
  match run.result with
  | Except.error e =>
      ({ moduleName := moduleName, modulePath := modulePath,
         filesWritten := [(f90File, code)], driverArgv := [argv],
         displayed := run.displayed, loaded := Option.none, pushed := [],
         printed := [], result := Except.error e },
       { codeCache := st.codeCache, proc := proc1 })
  | Except.ok () =>
      let imp := importAll moduleDict args.verbosity
      ({ moduleName := moduleName, modulePath := modulePath,
         filesWritten := [(f90File, code)], driverArgv := [argv],
         displayed := run.displayed,
         loaded := Option.some (moduleName, modulePath),
         pushed := imp.pushed, printed := imp.printed,
         result := Except.ok () },
       { codeCache := (key, moduleName) :: st.codeCache, proc := proc1 })

/-! Concrete instances used by witnesses and counterexamples. -/

/-- A concrete ambient environment. -/
def envEx : Env :=
  { versionInfo := "(2, 7, 6)", executable := "/usr/bin/python",
    f2pyVersion := "2", libDir := "/home/user/.ipython/fortran",
    soExt := ".so" }

/-- A concrete stand-in for the md5 hex digest (the theorems quantify over
the digest function; any concrete function instantiates them). -/
def md5Ex : String → String := fun s => s

/-- A concrete stand-in for the Python `str` rendering of the key tuple. -/
def strKeyEx : Key → String := fun k =>
  k.code ++ "|" ++ k.versionInfo ++ "|" ++ k.executable ++ "|" ++ k.f2pyVersion

/-- A concrete process state before an invocation. -/
def procEx : ProcState := { argv := ["ipython"], cwd := "/home/user" }

/-- A driver that always succeeds, capturing no output. -/
def behOkEx : DriverBehavior :=
  { outcome := fun _ => DriverOutcome.ret, captured := fun _ => "" }

/-- A driver that always fails with exit status 1 after emitting a
compile error on its captured output. -/
def behFailEx : DriverBehavior :=
  { outcome := fun _ => DriverOutcome.sysExit "1",
    captured := fun _ => "Error: expected end statement" }

/-- A driver that raises `SystemExit` with the success status 0. -/
def behExitZeroEx : DriverBehavior :=
  { outcome := fun _ => DriverOutcome.sysExit "0",
    captured := fun _ => "ok" }

/-- A concrete module dict with one dunder and one public symbol. -/
def dictEx : List (String × PyVal) :=
  [("__doc__", PyVal.none), ("f", PyVal.str "fortran object f")]

/-- A module dict whose names are all dunder names. -/
def dunderDictEx : List (String × PyVal) :=
  [("__doc__", PyVal.none), ("__name__", PyVal.str "mod")]

/-- A concrete cell text, already newline-terminated. -/
def cellEx : String := "subroutine f(x)\nend subroutine f\n"

/-- The magic state at the start of a session: empty code cache. -/
def stEx0 : MagicState := { codeCache := [], proc := procEx }

/-- First invocation of the `%%fortran` magic on `cellEx` with default
arguments and a succeeding driver. -/
def run1Ex : FortranEffects × MagicState :=
  fortran envEx md5Ex strKeyEx behOkEx dictEx ParsedArgs.default cellEx stEx0

/-- Second invocation with the identical request, from the state the first
one left behind. -/
def run2Ex : FortranEffects × MagicState :=
  fortran envEx md5Ex strKeyEx behOkEx dictEx ParsedArgs.default cellEx run1Ex.2

/-! Reduction lemmas for the embedding. -/

/-- The result of `_run_f2py` is determined by the driver outcome under
the mutated argument vector. -/
theorem runF2py_result (libDir : String) (argv : List String)
    (sc : Bool) (v : Nat) (beh : DriverBehavior) (st : ProcState) :
    (runF2py libDir argv sc v beh st).1.result =
      match beh.outcome ("f2py" :: argv) with
      | DriverOutcome.ret => Except.ok ()
      | DriverOutcome.sysExit msg => Except.error (PyExc.usageError msg)
      | DriverOutcome.otherExc msg => Except.error (PyExc.other msg) := by
  rcases h : beh.outcome ("f2py" :: argv) <;> simp [runF2py, h]

/-- The module name recorded in the effects of a `%%fortran` invocation is
the generated base name, on the failure path as on the success path. -/
theorem fortran_moduleName (env : Env) (md5hex : String → String)
    (strKey : Key → String) (beh : DriverBehavior)
    (dict : List (String × PyVal)) (args : ParsedArgs) (cell : String)
    (st : MagicState) :
    (fortran env md5hex strKey beh dict args cell st).1.moduleName
      = moduleNameOf md5hex strKey env cell := by
  rcases ho : beh.outcome ("f2py" :: fortranArgv md5hex strKey env args cell)
    <;> simp [fortran, runF2py, ho]

/-- C4: after any `_run_f2py` invocation, whether the driver returned,
raised `SystemExit`, or raised any other exception, the process working
directory and `sys.argv` equal their pre-invocation values. -/
theorem runF2py_restores_process_state (libDir : String)
    (argv : List String) (sc : Bool) (v : Nat) (beh : DriverBehavior)
    (st : ProcState) :
    (runF2py libDir argv sc v beh st).2 = st := rfl

/-- C10: every `SystemExit` raised by the driver entry point, whatever its
status string (the status 0 included), becomes a `UsageError` with that
status as content, and `_run_f2py` returns normally only when the entry
point returned without raising `SystemExit`. -/
theorem runF2py_sysExit_always_usage_error (libDir : String)
    (argv : List String) (sc : Bool) (v : Nat) (beh : DriverBehavior)
    (st : ProcState) :
    (∀ msg, beh.outcome ("f2py" :: argv) = DriverOutcome.sysExit msg →
        (runF2py libDir argv sc v beh st).1.result
          = Except.error (PyExc.usageError msg))
    ∧ ((runF2py libDir argv sc v beh st).1.result = Except.ok () →
        beh.outcome ("f2py" :: argv) = DriverOutcome.ret) := by
  constructor
  · intro msg h
    rw [runF2py_result, h]
  · intro h
    rcases ho : beh.outcome ("f2py" :: argv) <;>
      rw [runF2py_result, ho] at h <;> simp_all

/-- Witness for C10 at a concrete input: a driver exiting with the
success status 0 still produces a `UsageError`, and with a normally
returning driver the call succeeds. -/
theorem runF2py_sysExit_always_usage_error_witness :
    (runF2py (envEx.libDir) ["-m", "m", "-c", "m.f90"] false 0 behExitZeroEx
        procEx).1.result = Except.error (PyExc.usageError "0") :=
  (runF2py_sysExit_always_usage_error (envEx.libDir)
    ["-m", "m", "-c", "m.f90"] false 0 behExitZeroEx procEx).1 ("0") rfl

/-- The test that `needle` occurs as a contiguous substring of `hay`. -/
def containsSub (needle hay : String) : Bool :=
  (List.range (hay.data.length + 1)).any fun i =>
    needle.data.isPrefixOf (hay.data.drop i)

/-- C3 counterexample: with a driver that exits with status 1 after
emitting a compile error on the captured stream, the raised `UsageError`
carries only `str(SystemExit)`, the status string, and the nonempty
captured output is not part of the content of the error (it is replayed
to the user separately). -/
theorem usage_error_content_lacks_captured_output :
    (runF2py (envEx.libDir) ["-m", "m", "-c", "m.f90"] false 0 behFailEx
        procEx).1.result = Except.error (PyExc.usageError "1")
    ∧ containsSub (behFailEx.captured ("f2py" :: ["-m", "m", "-c", "m.f90"]))
        ("1") = false
    ∧ behFailEx.captured ("f2py" :: ["-m", "m", "-c", "m.f90"]) ≠ "" := by
  refine ⟨rfl, rfl, ?_⟩
  decide

/-- C3 amended: when the driver raises `SystemExit e`, a single
`UsageError` is raised whose content is `str(e)` (the exit status or
message), and the captured driver output is displayed to the user before
the error is raised. -/
theorem runF2py_failure_surfacing (libDir : String) (argv : List String)
    (sc : Bool) (v : Nat) (beh : DriverBehavior) (st : ProcState)
    (msg : String)
    (h : beh.outcome ("f2py" :: argv) = DriverOutcome.sysExit msg) :
    (runF2py libDir argv sc v beh st).1.result
      = Except.error (PyExc.usageError msg)
    ∧ beh.captured ("f2py" :: argv)
        ∈ (runF2py libDir argv sc v beh st).1.displayed := by
  constructor
  · rw [runF2py_result, h]
  · simp [runF2py, h]

/-- Witness for the amended C3 at a concrete failing driver. -/
theorem runF2py_failure_surfacing_witness :
    (runF2py (envEx.libDir) [] false 0 behFailEx procEx).1.result
      = Except.error (PyExc.usageError "1")
    ∧ behFailEx.captured (["f2py"])
        ∈ (runF2py (envEx.libDir) [] false 0 behFailEx procEx).1.displayed :=
  runF2py_failure_surfacing (envEx.libDir) [] false 0 behFailEx procEx
    ("1") rfl

/-- C6: the argument translator emits exactly the `--name` tokens of the
boolean flags that are true, then the `--name=value` tokens of the string
options that are present, then one `--link-r` token per link resource `r`,
in that group order; it is a pure function of the parsed arguments. -/
theorem translator_token_groups (a : ParsedArgs) :
    f2pyArgs a = specTokens a := by
  rcases a with ⟨v, fc, c, f90, f77, o, ar, no, na, d, l⟩
  rcases fc <;> rcases c <;> rcases f90 <;> rcases f77 <;> rcases o <;>
    rcases ar <;> rcases no <;> rcases na <;> rcases d <;> rfl

/-- Appending a newline character yields text whose last character is the
newline. -/
theorem endsNL_append_nl (s : String) : endsNL (s ++ "\n") = true := by
  simp [endsNL, String.data_append]

/-- Normalized text always ends in a newline. -/
theorem endsNL_norm (s : String) : endsNL (norm s) = true := by
  unfold norm
  rcases h : endsNL s
  · simp [endsNL_append_nl]
  · simp [h]

/-- Normalization applied twice equals normalization applied once. -/
theorem norm_idem (c : String) : norm (norm c) = norm c := by
  rcases h : endsNL c
  · simp [norm, h, endsNL_append_nl]
  · simp [norm, h]

/-- C9: the normalization of line 249 appends a trailing newline exactly
when the cell does not already end with one; a cell and the same cell with
a newline appended normalize identically, hence share the key tuple and
the generated module name; normalization is idempotent. -/
theorem norm_newline_insensitive (cell : String)
    (h : endsNL cell = false) (md5hex : String → String)
    (strKey : Key → String) (env : Env) :
    norm cell = cell ++ "\n"
    ∧ norm cell = norm (cell ++ "\n")
    ∧ requestKey env cell = requestKey env (cell ++ "\n")
    ∧ moduleNameOf md5hex strKey env cell
        = moduleNameOf md5hex strKey env (cell ++ "\n")
    ∧ (∀ c, endsNL c = true → norm c = c)
    ∧ (∀ c, norm (norm c) = norm c) := by
  have h1 : norm cell = cell ++ "\n" := by simp [norm, h]
  have h2 : norm (cell ++ "\n") = cell ++ "\n" := by
    simp [norm, endsNL_append_nl]
  have h3 : norm cell = norm (cell ++ "\n") := by rw [h1, h2]
  refine ⟨h1, h3, ?_, ?_, ?_, ?_⟩
  · simp [requestKey, h3]
  · simp [moduleNameOf, requestKey, h3]
  · intro c hc; simp [norm, hc]
  · intro c; exact norm_idem c

/-- Witness for C9 at the concrete cell text `"end"`. -/
theorem norm_newline_insensitive_witness :
    norm ("end") = "end" ++ "\n"
    ∧ norm ("end") = norm ("end" ++ "\n")
    ∧ requestKey envEx ("end") = requestKey envEx ("end" ++ "\n")
    ∧ moduleNameOf md5Ex strKeyEx envEx ("end")
        = moduleNameOf md5Ex strKeyEx envEx ("end" ++ "\n")
    ∧ (∀ c, endsNL c = true → norm c = c)
    ∧ (∀ c, norm (norm c) = norm c) :=
  norm_newline_insensitive ("end") (by decide) md5Ex strKeyEx envEx

/-- C5: the key tuple of line 250, and with it the generated module base
name, is a function of exactly the normalized source text, the interpreter
version, the interpreter path, and the driver version: two requests
agreeing on those four agree on key and module name whatever their parsed
flags, and the module name used by the `%%fortran` invocation itself is
flag-independent. -/
theorem fingerprint_deterministic_flag_independent
    (md5hex : String → String) (strKey : Key → String) (env : Env)
    (cell1 cell2 : String) (h : norm cell1 = norm cell2)
    (a1 a2 : ParsedArgs) (beh1 beh2 : DriverBehavior)
    (dict1 dict2 : List (String × PyVal)) (st1 st2 : MagicState) :
    requestKey env cell1 = requestKey env cell2
    ∧ moduleNameOf md5hex strKey env cell1
        = moduleNameOf md5hex strKey env cell2
    ∧ (fortran env md5hex strKey beh1 dict1 a1 cell1 st1).1.moduleName
        = (fortran env md5hex strKey beh2 dict2 a2 cell2 st2).1.moduleName := by
  have hk : requestKey env cell1 = requestKey env cell2 := by
    simp [requestKey, h]
  have hm : moduleNameOf md5hex strKey env cell1
      = moduleNameOf md5hex strKey env cell2 := by
    simp [moduleNameOf, hk]
  refine ⟨hk, hm, ?_⟩
  rw [fortran_moduleName, fortran_moduleName, hm]

/-- A default argument set with several flags switched on, used to show
flag-independence of the fingerprint. -/
def argsFlagsEx : ParsedArgs :=
  { ParsedArgs.default with
    debug := true, noopt := true
    fcompiler := Option.some "gnu95"
    link := ["lapack_opt"] }

/-- Witness for C5: the cells `"end"` and `"end\n"` normalize alike, and
two invocations differing in all compiler flags still generate the same
module name. -/
theorem fingerprint_deterministic_flag_independent_witness :
    requestKey envEx ("end") = requestKey envEx ("end" ++ "\n")
    ∧ moduleNameOf md5Ex strKeyEx envEx ("end")
        = moduleNameOf md5Ex strKeyEx envEx ("end" ++ "\n")
    ∧ (fortran envEx md5Ex strKeyEx behOkEx dictEx ParsedArgs.default
          ("end") stEx0).1.moduleName
        = (fortran envEx md5Ex strKeyEx behOkEx dictEx argsFlagsEx
          ("end" ++ "\n") stEx0).1.moduleName :=
  fingerprint_deterministic_flag_independent md5Ex strKeyEx envEx
    ("end") ("end" ++ "\n") (by decide) ParsedArgs.default argsFlagsEx
    behOkEx behOkEx dictEx dictEx stEx0 stEx0

/-- Every `%%fortran` invocation hands `_run_f2py` exactly one argument
vector, the translated flags followed by the module name and source path,
on the failure path as on the success path. -/
theorem fortran_driverArgv (env : Env) (md5hex : String → String)
    (strKey : Key → String) (beh : DriverBehavior)
    (dict : List (String × PyVal)) (args : ParsedArgs) (cell : String)
    (st : MagicState) :
    (fortran env md5hex strKey beh dict args cell st).1.driverArgv
      = [fortranArgv md5hex strKey env args cell] := by
  rcases ho : beh.outcome ("f2py" :: fortranArgv md5hex strKey env args cell)
    <;> simp [fortran, runF2py, ho]

/-- Every `%%fortran` invocation writes the normalized cell text to the
fingerprint-named source file, on the failure path as on the success
path. -/
theorem fortran_filesWritten (env : Env) (md5hex : String → String)
    (strKey : Key → String) (beh : DriverBehavior)
    (dict : List (String × PyVal)) (args : ParsedArgs) (cell : String)
    (st : MagicState) :
    (fortran env md5hex strKey beh dict args cell st).1.filesWritten
      = [(f90FileOf md5hex strKey env cell, norm cell)] := by
  rcases ho : beh.outcome ("f2py" :: fortranArgv md5hex strKey env args cell)
    <;> simp [fortran, runF2py, ho]

/-- C1 counterexample: after a first successful invocation on `cellEx` the
fingerprint is already mapped to the built artifact name in `_code_cache`,
yet the second identical invocation still hands an argument vector to the
driver; compilation is not skipped. -/
theorem cached_fingerprint_still_invokes_driver :
    run1Ex.2.codeCache.lookup (requestKey envEx cellEx)
      = Option.some (moduleNameOf md5Ex strKeyEx envEx cellEx)
    ∧ run2Ex.1.driverArgv ≠ [] := by
  constructor
  · rfl
  · rw [run2Ex, fortran_driverArgv]
    simp

/-- C1 amended: a second invocation with an identical request finds the
fingerprint already mapped to the built artifact name, but the mapping is
never consulted: the driver is invoked again with the same argument
vector, and on success the same artifact handle (module name and path) is
produced and the fingerprint maps to the same artifact name afterwards. -/
theorem second_identical_request_recompiles (env : Env)
    (md5hex : String → String) (strKey : Key → String)
    (beh : DriverBehavior) (dict : List (String × PyVal))
    (args : ParsedArgs) (cell : String) (st : MagicState)
    (hcached : st.codeCache.lookup (requestKey env cell)
      = Option.some (moduleNameOf md5hex strKey env cell)) :
    (fortran env md5hex strKey beh dict args cell st).1.driverArgv
      = [fortranArgv md5hex strKey env args cell]
    ∧ (beh.outcome ("f2py" :: fortranArgv md5hex strKey env args cell)
          = DriverOutcome.ret →
        (fortran env md5hex strKey beh dict args cell st).1.loaded
          = Option.some (moduleNameOf md5hex strKey env cell,
              modulePathOf md5hex strKey env cell)
        ∧ (fortran env md5hex strKey beh dict args cell st).2.codeCache.lookup
            (requestKey env cell)
          = Option.some (moduleNameOf md5hex strKey env cell)) := by
  refine ⟨fortran_driverArgv env md5hex strKey beh dict args cell st, ?_⟩
  intro ho
  constructor
  · simp [fortran, runF2py, ho]
  · simp [fortran, runF2py, ho, List.lookup]

/-- Witness for the amended C1: the second concrete invocation on `cellEx`
re-invokes the driver and reproduces the same handle. -/
theorem second_identical_request_recompiles_witness :
    run2Ex.1.driverArgv
      = [fortranArgv md5Ex strKeyEx envEx ParsedArgs.default cellEx]
    ∧ (behOkEx.outcome
          ("f2py" :: fortranArgv md5Ex strKeyEx envEx ParsedArgs.default cellEx)
          = DriverOutcome.ret →
        run2Ex.1.loaded
          = Option.some (moduleNameOf md5Ex strKeyEx envEx cellEx,
              modulePathOf md5Ex strKeyEx envEx cellEx)
        ∧ run2Ex.2.codeCache.lookup (requestKey envEx cellEx)
          = Option.some (moduleNameOf md5Ex strKeyEx envEx cellEx)) :=
  second_identical_request_recompiles envEx md5Ex strKeyEx behOkEx dictEx
    ParsedArgs.default cellEx run1Ex.2 rfl

/-- C2: when the driver fails, the raised `UsageError` propagates before
the cache assignment, so `_code_cache` is unchanged and a subsequent
identical request hands the driver the same argument vector again. -/
theorem driver_failure_leaves_cache_unchanged (env : Env)
    (md5hex : String → String) (strKey : Key → String)
    (beh : DriverBehavior) (dict : List (String × PyVal))
    (args : ParsedArgs) (cell : String) (st : MagicState) (msg : String)
    (h : beh.outcome ("f2py" :: fortranArgv md5hex strKey env args cell)
      = DriverOutcome.sysExit msg) :
    (fortran env md5hex strKey beh dict args cell st).1.result
      = Except.error (PyExc.usageError msg)
    ∧ (fortran env md5hex strKey beh dict args cell st).2.codeCache
      = st.codeCache
    ∧ (fortran env md5hex strKey beh dict args cell
          (fortran env md5hex strKey beh dict args cell st).2).1.driverArgv
      = [fortranArgv md5hex strKey env args cell] := by
  refine ⟨?_, ?_, fortran_driverArgv env md5hex strKey beh dict args cell _⟩
  · simp [fortran, runF2py, h]
  · simp [fortran, runF2py, h]

/-- Witness for C2 at a concrete failing driver. -/
theorem driver_failure_leaves_cache_unchanged_witness :
    (fortran envEx md5Ex strKeyEx behFailEx dictEx ParsedArgs.default
        cellEx stEx0).1.result = Except.error (PyExc.usageError "1")
    ∧ (fortran envEx md5Ex strKeyEx behFailEx dictEx ParsedArgs.default
        cellEx stEx0).2.codeCache = stEx0.codeCache
    ∧ (fortran envEx md5Ex strKeyEx behFailEx dictEx ParsedArgs.default
        cellEx
        (fortran envEx md5Ex strKeyEx behFailEx dictEx ParsedArgs.default
          cellEx stEx0).2).1.driverArgv
      = [fortranArgv md5Ex strKeyEx envEx ParsedArgs.default cellEx] :=
  driver_failure_leaves_cache_unchanged envEx md5Ex strKeyEx behFailEx
    dictEx ParsedArgs.default cellEx stEx0 ("1") rfl

/-- C7: a request whose fingerprint is not yet cached has the normalized
source written to the fingerprint-named `.f90` file in the cache
directory, and the driver invoked with the translated flags followed by
the module name and that source path. -/
theorem uncached_request_writes_source_and_invokes (env : Env)
    (md5hex : String → String) (strKey : Key → String)
    (beh : DriverBehavior) (dict : List (String × PyVal))
    (args : ParsedArgs) (cell : String) (st : MagicState)
    (h : st.codeCache.lookup (requestKey env cell) = Option.none) :
    (fortran env md5hex strKey beh dict args cell st).1.filesWritten
      = [(env.libDir ++ "/" ++ moduleNameOf md5hex strKey env cell ++ ".f90",
          norm cell)]
    ∧ (fortran env md5hex strKey beh dict args cell st).1.driverArgv
      = [f2pyArgs args
          ++ ["-m", moduleNameOf md5hex strKey env cell, "-c",
              env.libDir ++ "/" ++ moduleNameOf md5hex strKey env cell
                ++ ".f90"]] := by
  constructor
  · rw [fortran_filesWritten]
    rfl
  · rw [fortran_driverArgv]
    rfl

/-- Witness for C7: the empty cache maps no fingerprint. -/
theorem uncached_request_writes_source_and_invokes_witness :
    (fortran envEx md5Ex strKeyEx behOkEx dictEx ParsedArgs.default cellEx
        stEx0).1.filesWritten
      = [(envEx.libDir ++ "/" ++ moduleNameOf md5Ex strKeyEx envEx cellEx
            ++ ".f90", norm cellEx)]
    ∧ (fortran envEx md5Ex strKeyEx behOkEx dictEx ParsedArgs.default cellEx
        stEx0).1.driverArgv
      = [f2pyArgs ParsedArgs.default
          ++ ["-m", moduleNameOf md5Ex strKeyEx envEx cellEx, "-c",
              envEx.libDir ++ "/" ++ moduleNameOf md5Ex strKeyEx envEx cellEx
                ++ ".f90"]] :=
  uncached_request_writes_source_and_invokes envEx md5Ex strKeyEx behOkEx
    dictEx ParsedArgs.default cellEx stEx0 rfl

/-- The parsed arguments of a maximally quiet request except for one
verbosity step. -/
def argsV1Ex : ParsedArgs := { ParsedArgs.default with verbosity := 1 }

/-- C8 counterexample: a successfully loaded artifact module whose dict
holds only dunder names injects nothing, and although verbosity is greater
than zero no summary is printed. -/
theorem no_summary_for_dunder_only_module :
    (fortran envEx md5Ex strKeyEx behOkEx dunderDictEx argsV1Ex cellEx
        stEx0).1.result = Except.ok ()
    ∧ argsV1Ex.verbosity > 0
    ∧ (fortran envEx md5Ex strKeyEx behOkEx dunderDictEx argsV1Ex cellEx
        stEx0).1.printed = [] := by
  refine ⟨?_, by decide, ?_⟩
  · simp [fortran, runF2py, behOkEx]
  · simp [fortran, runF2py, behOkEx, importAll, dunderDictEx, startsDunder]

/-- C8 amended: every item of the module dict whose name does not start
with a double underscore is pushed into the interactive namespace, and the
summary line is printed exactly when verbosity is positive and at least
one name was injected. -/
theorem import_all_injects_and_summarizes (dict : List (String × PyVal))
    (v : Nat) :
    (∀ kv, kv ∈ dict → startsDunder kv.1 = false →
        kv ∈ (importAll dict v).pushed)
    ∧ (importAll dict v).pushed
        = dict.filter (fun kv => !(startsDunder kv.1))
    ∧ (v > 0 → (importAll dict v).pushed ≠ [] →
        (importAll dict v).printed
          = [summaryLine ((importAll dict v).pushed.map Prod.fst)])
    ∧ (v = 0 → (importAll dict v).printed = []) := by
  refine ⟨?_, rfl, ?_, ?_⟩
  · intro kv hmem hpub
    simp [importAll, List.mem_filter, hmem, hpub]
  · intro hv hne
    simp only [importAll] at hne ⊢
    simp [hv, List.isEmpty_iff, hne]
  · intro hv
    simp [importAll, hv]

/-- Witness for the amended C8 on a concrete module dict with one public
name and verbosity 1. -/
theorem import_all_injects_and_summarizes_witness :
    (importAll dictEx 1).printed
      = [summaryLine ((importAll dictEx 1).pushed.map Prod.fst)] :=
  (import_all_injects_and_summarizes dictEx 1).2.2.1 (by decide) (by decide)

end FortranMagic
